import Mathlib

/-
  Verification of the docGPT repository (src/app.py and src/handler.py).

  The two Python files are thin adapters around five external collaborators
  imported from utils.py (process_pdf, send_to_qdrant, qdrant_client, qa_ret,
  OpenAIEmbeddings) and the Telegram / FastAPI frameworks.  We embed each
  handler as a pure Lean function over an oracle (Env) that fixes the
  behaviour of every external call: a call either returns a value or raises
  an exception carrying its message string (the Python str(e)).
  Handlers return their HTTP response, the observable Telegram event trace,
  and whether the per-upload temporary file still exists on return.
-/

namespace DocGPT

/-- Result of one external call: a normal return or a raised exception
carrying the exception message (what Python str(e) yields). -/
inductive ExtResult (α : Type) where
  | ok : α → ExtResult α
  | exn : String → ExtResult α
  deriving DecidableEq

abbrev Chunks := List String
abbrev EmbModel := Nat
abbrev MsgId := Nat
abbrev StoreHandle := Nat

/-- Oracle fixing the behaviour of every external collaborator and framework
call made by the handlers, plus the values the environment supplies
(the OPENAI_API_KEY variable, and the name the tempfile module picks). -/
structure Env where
  openai_api_key : String
  tmp_name : String
  process_pdf : String → ExtResult Chunks
  OpenAIEmbeddings : String → String → ExtResult EmbModel
  send_to_qdrant : Chunks → EmbModel → ExtResult Bool
  qdrant_client : ExtResult StoreHandle
  qa_ret : StoreHandle → String → ExtResult String
  reply_text : String → ExtResult MsgId
  edit_text : MsgId → String → ExtResult Unit
  get_file : String → ExtResult Nat
  download_to_drive : Nat → String → ExtResult Unit

/-- HTTP response of a FastAPI endpoint: a JSON object of string fields, or
an HTTPException surfacing as a status code plus detail string. -/
inductive ApiResponse where
  | json : List (String × String) → ApiResponse
  | httpError : Nat → String → ApiResponse
  deriving DecidableEq

/-- What str(e) yields on a starlette HTTPException: "status: detail". -/
def strHTTPException (status : Nat) (detail : String) : String :=
  toString status ++ ": " ++ detail

/-- Embedding of upload_pdf (src/app.py lines 64-96).  The temporary file is
created by the with-block; each pipeline step may raise, and any exception is
caught by the except clause, which raises HTTPException(500,
"Failed to process PDF: " ++ str(e)).  The HTTPException raised on the
success=False branch is itself inside the try block, so it is re-caught and
re-wrapped by the same except clause.  Returns (response, temp file still
exists on return). -/
def upload_pdf (env : Env) : ApiResponse × Bool :=
  match env.process_pdf env.tmp_name with
  | .exn e => (.httpError 500 ("Failed to process PDF: " ++ e), true)
  | .ok document_chunks =>
    match env.OpenAIEmbeddings env.openai_api_key "text-embedding-ada-002" with
    | .exn e => (.httpError 500 ("Failed to process PDF: " ++ e), true)
    | .ok embedding_model =>
      match env.send_to_qdrant document_chunks embedding_model with
      | .exn e => (.httpError 500 ("Failed to process PDF: " ++ e), true)
      | .ok success =>
        if success then
          (.json [("message", "PDF successfully processed and stored in vector DB")], false)
        else
          (.httpError 500 ("Failed to process PDF: " ++
            strHTTPException 500 "Failed to store PDF in vector DB"), false)

/-- Embedding of ask_question (src/app.py lines 99-117): opens the vector
store handle, delegates to qa_ret, returns the answer; any exception is
caught and converted to a 500 response carrying the message. -/
def ask_question (env : Env) (question : String) : ApiResponse :=
  match env.qdrant_client with
  | .exn e => .httpError 500 ("Failed to retrieve answer: " ++ e)
  | .ok qdrant_store =>
    match env.qa_ret qdrant_store question with
    | .exn e => .httpError 500 ("Failed to retrieve answer: " ++ e)
    | .ok response => .json [("answer", response)]

/-- Embedding of health_check (src/app.py lines 120-122). -/
def health_check : ApiResponse :=
  .json [("status", "Hello There!")]

/-- An HTTP request to one of the three JSON endpoints. -/
inductive Request where
  | upload : Request
  | ask : String → Request
  | health : Request
  deriving DecidableEq

/-- FastAPI dispatch: each request is routed to its endpoint; the handlers
share no in-process state, so the response list is a map. -/
def route (env : Env) : Request → ApiResponse
  | .upload => (upload_pdf env).1
  | .ask q => ask_question env q
  | .health => health_check

/-- A sequence of requests served in order. -/
def serve (env : Env) (reqs : List Request) : List ApiResponse :=
  reqs.map (route env)

/-- Observable effect of a Telegram handler: a successfully sent reply
(with the message id Telegram assigned), a successful edit of an earlier
message, or a call into an external collaborator. -/
inductive Event where
  | sentReply (text : String) (msgId : MsgId)
  | editedMessage (msgId : MsgId) (text : String)
  | calledGetFile (fileId : String)
  | calledDownload (path : String)
  | calledProcessPdf (path : String)
  | calledEmbeddings (model : String)
  | calledSendToQdrant
  | calledQdrantClient
  | calledQaRet (question : String)
  | removedTemp (path : String)
  deriving DecidableEq

/-- Whether an event is an edit of an earlier message. -/
def Event.isEdit : Event → Bool
  | .editedMessage _ _ => true
  | _ => false

/-- Outcome of one Telegram handler invocation: the ordered event trace, the
final existence of the per-upload temporary file (false when none was ever
created), and an exception that escaped the handler body, if any. -/
structure TgOutcome where
  events : List Event
  tempExists : Bool
  escaped : Option String
  deriving DecidableEq

namespace App

/-- Embedding of the first start_command in src/app.py (lines 14-15): a
single reply, no try block, so a raise escapes. -/
def start_command_v1 (env : Env) : TgOutcome :=
  match env.reply_text "Hello! I am your PDF assistant bot. Send me a PDF file and then ask questions about it." with
  | .exn e => ⟨[], false, some e⟩
  | .ok m => ⟨[.sentReply "Hello! I am your PDF assistant bot. Send me a PDF file and then ask questions about it." m], false, none⟩

/-- Embedding of the first help_command in src/app.py (lines 17-18). -/
def help_command_v1 (env : Env) : TgOutcome :=
  match env.reply_text "Commands:\n/start - Start the bot\n/help - Show this help message" with
  | .exn e => ⟨[], false, some e⟩
  | .ok m => ⟨[.sentReply "Commands:\n/start - Start the bot\n/help - Show this help message" m], false, none⟩

/-- Welcome text of the second start_command in src/app.py (lines 125-136). -/
def welcome_message : String :=
  "👋 Welcome to your PDF Q&A Bot!\n\nHere\x27s how to use me:\n1. Send me a PDF document 📄\n2. Once I process it, you can ask me any questions about its content ❓\n3. I\x27ll do my best to answer based on the document content 🤓\n\nUse /help to see all available commands."

/-- Help text of the second help_command in src/app.py (lines 138-147). -/
def help_text : String :=
  "📚 Available Commands:\n\n/start - Start the bot\n/help - Show this help message\n\nYou can also:\n• Send a PDF file to process it\n• Ask questions about the processed PDF\n"

/-- Embedding of the second start_command in src/app.py (lines 125-136). -/
def start_command (env : Env) : TgOutcome :=
  match env.reply_text welcome_message with
  | .exn e => ⟨[], false, some e⟩
  | .ok m => ⟨[.sentReply welcome_message m], false, none⟩

/-- Embedding of the second help_command in src/app.py (lines 138-147). -/
def help_command (env : Env) : TgOutcome :=
  match env.reply_text help_text with
  | .exn e => ⟨[], false, some e⟩
  | .ok m => ⟨[.sentReply help_text m], false, none⟩

/-- Except clause of handle_pdf in src/app.py (lines 187-190): reply with the
error text; if that reply itself raises, the exception escapes the handler. -/
def pdf_except (env : Env) (evs : List Event) (temp : Bool) (e : String) : TgOutcome :=
  match env.reply_text ("❌ Sorry, an error occurred while processing your PDF: " ++ e) with
  | .exn e2 => ⟨evs, temp, some e2⟩
  | .ok m => ⟨evs ++ [.sentReply ("❌ Sorry, an error occurred while processing your PDF: " ++ e) m], temp, none⟩

/-- Embedding of handle_pdf in src/app.py (lines 149-190): acknowledgment
reply, get_file, temp-file download, process_pdf, embeddings construction,
send_to_qdrant, temp-file removal, then an edit of the acknowledgment; every
step is inside the try block, and any exception goes to pdf_except. -/
def handle_pdf (env : Env) (file_id : String) : TgOutcome :=
  match env.reply_text "Processing your PDF... 📄" with
  | .exn e => pdf_except env [] false e
  | .ok ackId =>
    let ev0 := [Event.sentReply "Processing your PDF... 📄" ackId]
    match env.get_file file_id with
    | .exn e => pdf_except env (ev0 ++ [.calledGetFile file_id]) false e
    | .ok pdf_file =>
      let ev1 := ev0 ++ [Event.calledGetFile file_id]
      match env.download_to_drive pdf_file env.tmp_name with
      | .exn e => pdf_except env (ev1 ++ [.calledDownload env.tmp_name]) true e
      | .ok _ =>
        let ev2 := ev1 ++ [Event.calledDownload env.tmp_name]
        match env.process_pdf env.tmp_name with
        | .exn e => pdf_except env (ev2 ++ [.calledProcessPdf env.tmp_name]) true e
        | .ok document_chunks =>
          let ev3 := ev2 ++ [Event.calledProcessPdf env.tmp_name]
          match env.OpenAIEmbeddings env.openai_api_key "text-embedding-ada-002" with
          | .exn e => pdf_except env (ev3 ++ [.calledEmbeddings "text-embedding-ada-002"]) true e
          | .ok embedding_model =>
            let ev4 := ev3 ++ [Event.calledEmbeddings "text-embedding-ada-002"]
            match env.send_to_qdrant document_chunks embedding_model with
            | .exn e => pdf_except env (ev4 ++ [.calledSendToQdrant]) true e
            | .ok success =>
              let ev5 := ev4 ++ [Event.calledSendToQdrant, Event.removedTemp env.tmp_name]
              if success then
                match env.edit_text ackId "✅ PDF processed successfully! You can now ask me questions about it." with
                | .exn e => pdf_except env ev5 false e
                | .ok _ => ⟨ev5 ++ [.editedMessage ackId "✅ PDF processed successfully! You can now ask me questions about it."], false, none⟩
              else
                match env.edit_text ackId "❌ Sorry, I couldn\x27t process your PDF. Please try again." with
                | .exn e => pdf_except env ev5 false e
                | .ok _ => ⟨ev5 ++ [.editedMessage ackId "❌ Sorry, I couldn\x27t process your PDF. Please try again."], false, none⟩

/-- Except clause of handle_question in src/app.py (lines 210-213): a fixed
apology reply; if that reply itself raises, the exception escapes. -/
def question_except (env : Env) (evs : List Event) : TgOutcome :=
  match env.reply_text "❌ Sorry, I couldn\x27t process your question. Make sure you\x27ve sent a PDF first!" with
  | .exn e2 => ⟨evs, false, some e2⟩
  | .ok m => ⟨evs ++ [.sentReply "❌ Sorry, I couldn\x27t process your question. Make sure you\x27ve sent a PDF first!" m], false, none⟩

/-- Embedding of handle_question in src/app.py (lines 192-213): thinking
placeholder, qdrant_client, qa_ret, then an edit of the placeholder; any
exception from any of the four steps goes to question_except. -/
def handle_question (env : Env) (question : String) : TgOutcome :=
  match env.reply_text "🤔 Let me think about that..." with
  | .exn _ => question_except env []
  | .ok thinkingId =>
    let ev0 := [Event.sentReply "🤔 Let me think about that..." thinkingId]
    match env.qdrant_client with
    | .exn _ => question_except env (ev0 ++ [.calledQdrantClient])
    | .ok qdrant_store =>
      let ev1 := ev0 ++ [Event.calledQdrantClient]
      match env.qa_ret qdrant_store question with
      | .exn _ => question_except env (ev1 ++ [.calledQaRet question])
      | .ok answer =>
        let ev2 := ev1 ++ [Event.calledQaRet question]
        match env.edit_text thinkingId ("🔍 " ++ answer) with
        | .exn _ => question_except env ev2
        | .ok _ => ⟨ev2 ++ [.editedMessage thinkingId ("🔍 " ++ answer)], false, none⟩

end App

namespace Handler

/-- Welcome text of start_command in src/handler.py (lines 12-22). -/
def welcome_message : String :=
  "👋 Welcome to your PDF Q&A Bot!\n\nHere\x27s how to use me:\n1. Send me a PDF document 📄\n2. Once I process it, you can ask me any questions about its content ❓\n3. I\x27ll do my best to answer based on the document content 🤓\n\nUse /help to see all available commands."

/-- Help text of help_command in src/handler.py (lines 24-34). -/
def help_text : String :=
  "📚 Available Commands:\n\n/start - Start the bot\n/help - Show this help message\n\nYou can also:\n• Send a PDF file to process it\n• Ask questions about the processed PDF\n"

/-- Embedding of start_command in src/handler.py (lines 12-22). -/
def start_command (env : Env) : TgOutcome :=
  match env.reply_text welcome_message with
  | .exn e => ⟨[], false, some e⟩
  | .ok m => ⟨[.sentReply welcome_message m], false, none⟩

/-- Embedding of help_command in src/handler.py (lines 24-34). -/
def help_command (env : Env) : TgOutcome :=
  match env.reply_text help_text with
  | .exn e => ⟨[], false, some e⟩
  | .ok m => ⟨[.sentReply help_text m], false, none⟩

/-- Except clause of handle_pdf in src/handler.py (lines 74-77). -/
def pdf_except (env : Env) (evs : List Event) (temp : Bool) (e : String) : TgOutcome :=
  match env.reply_text ("❌ Sorry, an error occurred while processing your PDF: " ++ e) with
  | .exn e2 => ⟨evs, temp, some e2⟩
  | .ok m => ⟨evs ++ [.sentReply ("❌ Sorry, an error occurred while processing your PDF: " ++ e) m], temp, none⟩

/-- Embedding of handle_pdf in src/handler.py (lines 36-77). -/
def handle_pdf (env : Env) (file_id : String) : TgOutcome :=
  match env.reply_text "Processing your PDF... 📄" with
  | .exn e => pdf_except env [] false e
  | .ok ackId =>
    let ev0 := [Event.sentReply "Processing your PDF... 📄" ackId]
    match env.get_file file_id with
    | .exn e => pdf_except env (ev0 ++ [.calledGetFile file_id]) false e
    | .ok pdf_file =>
      let ev1 := ev0 ++ [Event.calledGetFile file_id]
      match env.download_to_drive pdf_file env.tmp_name with
      | .exn e => pdf_except env (ev1 ++ [.calledDownload env.tmp_name]) true e
      | .ok _ =>
        let ev2 := ev1 ++ [Event.calledDownload env.tmp_name]
        match env.process_pdf env.tmp_name with
        | .exn e => pdf_except env (ev2 ++ [.calledProcessPdf env.tmp_name]) true e
        | .ok document_chunks =>
          let ev3 := ev2 ++ [Event.calledProcessPdf env.tmp_name]
          match env.OpenAIEmbeddings env.openai_api_key "text-embedding-ada-002" with
          | .exn e => pdf_except env (ev3 ++ [.calledEmbeddings "text-embedding-ada-002"]) true e
          | .ok embedding_model =>
            let ev4 := ev3 ++ [Event.calledEmbeddings "text-embedding-ada-002"]
            match env.send_to_qdrant document_chunks embedding_model with
            | .exn e => pdf_except env (ev4 ++ [.calledSendToQdrant]) true e
            | .ok success =>
              let ev5 := ev4 ++ [Event.calledSendToQdrant, Event.removedTemp env.tmp_name]
              if success then
                match env.edit_text ackId "✅ PDF processed successfully! You can now ask me questions about it." with
                | .exn e => pdf_except env ev5 false e
                | .ok _ => ⟨ev5 ++ [.editedMessage ackId "✅ PDF processed successfully! You can now ask me questions about it."], false, none⟩
              else
                match env.edit_text ackId "❌ Sorry, I couldn\x27t process your PDF. Please try again." with
                | .exn e => pdf_except env ev5 false e
                | .ok _ => ⟨ev5 ++ [.editedMessage ackId "❌ Sorry, I couldn\x27t process your PDF. Please try again."], false, none⟩

/-- Except clause of handle_question in src/handler.py (lines 97-100). -/
def question_except (env : Env) (evs : List Event) : TgOutcome :=
  match env.reply_text "❌ Sorry, I couldn\x27t process your question. Make sure you\x27ve sent a PDF first!" with
  | .exn e2 => ⟨evs, false, some e2⟩
  | .ok m => ⟨evs ++ [.sentReply "❌ Sorry, I couldn\x27t process your question. Make sure you\x27ve sent a PDF first!" m], false, none⟩

/-- Embedding of handle_question in src/handler.py (lines 79-100). -/
def handle_question (env : Env) (question : String) : TgOutcome :=
  match env.reply_text "🤔 Let me think about that..." with
  | .exn _ => question_except env []
  | .ok thinkingId =>
    let ev0 := [Event.sentReply "🤔 Let me think about that..." thinkingId]
    match env.qdrant_client with
    | .exn _ => question_except env (ev0 ++ [.calledQdrantClient])
    | .ok qdrant_store =>
      let ev1 := ev0 ++ [Event.calledQdrantClient]
      match env.qa_ret qdrant_store question with
      | .exn _ => question_except env (ev1 ++ [.calledQaRet question])
      | .ok answer =>
        let ev2 := ev1 ++ [Event.calledQaRet question]
        match env.edit_text thinkingId ("🔍 " ++ answer) with
        | .exn _ => question_except env ev2
        | .ok _ => ⟨ev2 ++ [.editedMessage thinkingId ("🔍 " ++ answer)], false, none⟩

end Handler

/-
  Module-level evaluation of src/app.py, for the handler-registration claim.
  Python executes the module top to bottom: a def statement rebinds the
  function name; bot_app.add_handler(CommandHandler(cmd, name)) looks the
  name up in the current bindings and appends the function OBJECT it finds,
  so a later rebinding of the name does not change what was registered.
-/

/-- The function objects bound to handler names during evaluation of
src/app.py: the first and second definitions of start_command and
help_command, and the single definitions of handle_pdf and handle_question. -/
inductive HandlerFn where
  | startV1
  | helpV1
  | startV2
  | helpV2
  | pdfH
  | questionH
  deriving DecidableEq

/-- A module-level statement relevant to handler registration. -/
inductive Stmt where
  | defFn (name : String) (fn : HandlerFn)
  | addHandler (command : String) (name : String)
  deriving DecidableEq

/-- Module state during evaluation: name bindings (most recent first) and the
ordered list of registered (command, function object) pairs. -/
structure ModState where
  bindings : List (String × HandlerFn)
  handlers : List (String × HandlerFn)
  deriving DecidableEq

/-- First binding for a name, as Python name lookup at call time. -/
def lookupFirst : List (String × HandlerFn) → String → Option HandlerFn
  | [], _ => none
  | (n, f) :: rest, name => if n = name then some f else lookupFirst rest name

/-- One module statement: def rebinds the name; add_handler resolves the name
now and registers the resulting function object; an unbound name is a Python
NameError, modelled as evaluation failure. -/
def evalStmt (s : ModState) : Stmt → Option ModState
  | .defFn n f => some { s with bindings := (n, f) :: s.bindings }
  | .addHandler cmd n =>
    match lookupFirst s.bindings n with
    | some f => some { s with handlers := s.handlers ++ [(cmd, f)] }
    | none => none

/-- Evaluate a list of module statements in order. -/
def evalModule : ModState → List Stmt → Option ModState
  | s, [] => some s
  | s, stmt :: rest =>
    match evalStmt s stmt with
    | some s2 => evalModule s2 rest
    | none => none

/-- The handler-relevant statements of src/app.py in source order: first
definitions of start_command and help_command (lines 14-18), the two
add_handler registrations (lines 24-25), then the second definitions of
start_command and help_command and the definitions of handle_pdf and
handle_question (lines 125-213).  No add_handler statement follows the
redefinitions. -/
def appModuleStmts : List Stmt :=
  [ .defFn "start_command" .startV1,
    .defFn "help_command" .helpV1,
    .addHandler "start" "start_command",
    .addHandler "help" "help_command",
    .defFn "start_command" .startV2,
    .defFn "help_command" .helpV2,
    .defFn "handle_pdf" .pdfH,
    .defFn "handle_question" .questionH ]

/-- Behaviour of a registered command-handler function object on a command
update; handle_pdf and handle_question are message handlers taking a
document or text argument, so they have no command behaviour. -/
def commandBehavior (env : Env) : HandlerFn → Option TgOutcome
  | .startV1 => some (App.start_command_v1 env)
  | .helpV1 => some (App.help_command_v1 env)
  | .startV2 => some (App.start_command env)
  | .helpV2 => some (App.help_command env)
  | .pdfH => none
  | .questionH => none

/-
  Concrete oracles used by witnesses and counterexamples.
-/

/-- An oracle on which every external call succeeds: the PDF yields one
chunk, send_to_qdrant reports success, qa_ret answers, and every Telegram
send, edit and download succeeds. -/
def okEnv : Env where
  openai_api_key := "key"
  tmp_name := "/tmp/upload.pdf"
  process_pdf := fun _ => .ok ["The sky is blue."]
  OpenAIEmbeddings := fun _ _ => .ok 7
  send_to_qdrant := fun _ _ => .ok true
  qdrant_client := .ok 1
  qa_ret := fun _ _ => .ok "The sky is blue."
  reply_text := fun _ => .ok 0
  edit_text := fun _ _ => .ok ()
  get_file := fun _ => .ok 3
  download_to_drive := fun _ _ => .ok ()

/-- The same oracle except that process_pdf raises (a corrupt PDF). -/
def pdfBoomEnv : Env :=
  { okEnv with process_pdf := fun _ => .exn "boom" }

/-
  Claims.
-/

/-- Claim C1: the spec requires that the temporary upload file no longer
exists when upload_pdf or handle_pdf returns, on every exit path.  The code
violates this: os.remove sits inside the try block after send_to_qdrant, so
on the exception paths the except clause returns an error response with the
temporary file still on disk.  This theorem evaluates both handlers at the
failing input (process_pdf raises): each returns its error response, yet
the temporary file still exists. -/
theorem C1_temp_file_leak_on_failure :
    (upload_pdf pdfBoomEnv).2 = true ∧
    (upload_pdf pdfBoomEnv).1 = .httpError 500 "Failed to process PDF: boom" ∧
    (App.handle_pdf pdfBoomEnv "file1").tempExists = true ∧
    (App.handle_pdf pdfBoomEnv "file1").escaped = none := by
  refine ⟨rfl, rfl, rfl, rfl⟩

/-- Claim C2 counterexample: when process_pdf raises, handle_pdf does not
edit the acknowledgment; it sends a NEW reply carrying the error text, and
no edit event occurs at all, refuting the claim that the acknowledgment is
edited to a failure text when a pipeline step raises. -/
theorem C2_counterexample :
    (App.handle_pdf pdfBoomEnv "file1").events =
      [.sentReply "Processing your PDF... 📄" 0,
       .calledGetFile "file1",
       .calledDownload "/tmp/upload.pdf",
       .calledProcessPdf "/tmp/upload.pdf",
       .sentReply "❌ Sorry, an error occurred while processing your PDF: boom" 0] ∧
    ((App.handle_pdf pdfBoomEnv "file1").events.all fun e => !e.isEdit) = true := by
  refine ⟨rfl, rfl⟩

/-- Claim C2 as amended: handle_pdf first sends the acknowledgment; when the
pipeline completes without raising it edits that same acknowledgment — with
the success text when send_to_qdrant returns true and the failure text when
it returns false; when process_pdf, the embeddings construction or
send_to_qdrant raises, it instead sends a new reply carrying the error
message and the acknowledgment is never edited. -/
theorem C2_amended (env : Env) (fid : String) (ackId : MsgId)
    (hack : env.reply_text "Processing your PDF... 📄" = .ok ackId) :
    (∀ f chunks em, env.get_file fid = .ok f →
      env.download_to_drive f env.tmp_name = .ok () →
      env.process_pdf env.tmp_name = .ok chunks →
      env.OpenAIEmbeddings env.openai_api_key "text-embedding-ada-002" = .ok em →
      env.send_to_qdrant chunks em = .ok true →
      env.edit_text ackId "✅ PDF processed successfully! You can now ask me questions about it." = .ok () →
      App.handle_pdf env fid =
        ⟨[.sentReply "Processing your PDF... 📄" ackId,
          .calledGetFile fid,
          .calledDownload env.tmp_name,
          .calledProcessPdf env.tmp_name,
          .calledEmbeddings "text-embedding-ada-002",
          .calledSendToQdrant,
          .removedTemp env.tmp_name,
          .editedMessage ackId "✅ PDF processed successfully! You can now ask me questions about it."],
         false, none⟩) ∧
    (∀ f chunks em, env.get_file fid = .ok f →
      env.download_to_drive f env.tmp_name = .ok () →
      env.process_pdf env.tmp_name = .ok chunks →
      env.OpenAIEmbeddings env.openai_api_key "text-embedding-ada-002" = .ok em →
      env.send_to_qdrant chunks em = .ok false →
      env.edit_text ackId "❌ Sorry, I couldn\x27t process your PDF. Please try again." = .ok () →
      App.handle_pdf env fid =
        ⟨[.sentReply "Processing your PDF... 📄" ackId,
          .calledGetFile fid,
          .calledDownload env.tmp_name,
          .calledProcessPdf env.tmp_name,
          .calledEmbeddings "text-embedding-ada-002",
          .calledSendToQdrant,
          .removedTemp env.tmp_name,
          .editedMessage ackId "❌ Sorry, I couldn\x27t process your PDF. Please try again."],
         false, none⟩) ∧
    (∀ f e m, env.get_file fid = .ok f →
      env.download_to_drive f env.tmp_name = .ok () →
      env.process_pdf env.tmp_name = .exn e →
      env.reply_text ("❌ Sorry, an error occurred while processing your PDF: " ++ e) = .ok m →
      App.handle_pdf env fid =
        ⟨[.sentReply "Processing your PDF... 📄" ackId,
          .calledGetFile fid,
          .calledDownload env.tmp_name,
          .calledProcessPdf env.tmp_name,
          .sentReply ("❌ Sorry, an error occurred while processing your PDF: " ++ e) m],
         true, none⟩) ∧
    (∀ f chunks e m, env.get_file fid = .ok f →
      env.download_to_drive f env.tmp_name = .ok () →
      env.process_pdf env.tmp_name = .ok chunks →
      env.OpenAIEmbeddings env.openai_api_key "text-embedding-ada-002" = .exn e →
      env.reply_text ("❌ Sorry, an error occurred while processing your PDF: " ++ e) = .ok m →
      App.handle_pdf env fid =
        ⟨[.sentReply "Processing your PDF... 📄" ackId,
          .calledGetFile fid,
          .calledDownload env.tmp_name,
          .calledProcessPdf env.tmp_name,
          .calledEmbeddings "text-embedding-ada-002",
          .sentReply ("❌ Sorry, an error occurred while processing your PDF: " ++ e) m],
         true, none⟩) ∧
    (∀ f chunks em e m, env.get_file fid = .ok f →
      env.download_to_drive f env.tmp_name = .ok () →
      env.process_pdf env.tmp_name = .ok chunks →
      env.OpenAIEmbeddings env.openai_api_key "text-embedding-ada-002" = .ok em →
      env.send_to_qdrant chunks em = .exn e →
      env.reply_text ("❌ Sorry, an error occurred while processing your PDF: " ++ e) = .ok m →
      App.handle_pdf env fid =
        ⟨[.sentReply "Processing your PDF... 📄" ackId,
          .calledGetFile fid,
          .calledDownload env.tmp_name,
          .calledProcessPdf env.tmp_name,
          .calledEmbeddings "text-embedding-ada-002",
          .calledSendToQdrant,
          .sentReply ("❌ Sorry, an error occurred while processing your PDF: " ++ e) m],
         true, none⟩) := by
  refine ⟨?_, ?_, ?_, ?_, ?_⟩ <;> intros <;>
    simp_all [App.handle_pdf, App.pdf_except]

/-- Witness for C2_amended: on the all-success oracle, handle_pdf produces
the full acknowledgment-then-edit trace. -/
theorem C2_amended_witness :
    App.handle_pdf okEnv "file1" =
      ⟨[.sentReply "Processing your PDF... 📄" 0,
        .calledGetFile "file1",
        .calledDownload "/tmp/upload.pdf",
        .calledProcessPdf "/tmp/upload.pdf",
        .calledEmbeddings "text-embedding-ada-002",
        .calledSendToQdrant,
        .removedTemp "/tmp/upload.pdf",
        .editedMessage 0 "✅ PDF processed successfully! You can now ask me questions about it."],
       false, none⟩ :=
  (C2_amended okEnv "file1" 0 rfl).1 3 ["The sky is blue."] 7 rfl rfl rfl rfl rfl rfl

/-- Claim C3: when process_pdf, the embeddings construction and
send_to_qdrant all return without raising and send_to_qdrant returns true,
upload_pdf returns exactly the success JSON message; when any of the three
delegated steps raises with message e, upload_pdf responds 500 with a detail
string carrying e. -/
theorem C3_upload_pdf_responses (env : Env) :
    (∀ chunks em, env.process_pdf env.tmp_name = .ok chunks →
      env.OpenAIEmbeddings env.openai_api_key "text-embedding-ada-002" = .ok em →
      env.send_to_qdrant chunks em = .ok true →
      (upload_pdf env).1 = .json [("message", "PDF successfully processed and stored in vector DB")]) ∧
    (∀ e, env.process_pdf env.tmp_name = .exn e →
      (upload_pdf env).1 = .httpError 500 ("Failed to process PDF: " ++ e)) ∧
    (∀ chunks e, env.process_pdf env.tmp_name = .ok chunks →
      env.OpenAIEmbeddings env.openai_api_key "text-embedding-ada-002" = .exn e →
      (upload_pdf env).1 = .httpError 500 ("Failed to process PDF: " ++ e)) ∧
    (∀ chunks em e, env.process_pdf env.tmp_name = .ok chunks →
      env.OpenAIEmbeddings env.openai_api_key "text-embedding-ada-002" = .ok em →
      env.send_to_qdrant chunks em = .exn e →
      (upload_pdf env).1 = .httpError 500 ("Failed to process PDF: " ++ e)) := by
  refine ⟨?_, ?_, ?_, ?_⟩ <;> intros <;> simp_all [upload_pdf]

/-- Witness for C3_upload_pdf_responses: on the all-success oracle the
upload endpoint returns the exact success message. -/
theorem C3_witness :
    (upload_pdf okEnv).1 = .json [("message", "PDF successfully processed and stored in vector DB")] :=
  (C3_upload_pdf_responses okEnv).1 ["The sky is blue."] 7 rfl rfl rfl

/-- Claim C4: for every question, ask_question either returns the JSON
answer produced by qa_ret on the opened store handle, or a 500 error; the
function is total on every oracle, so no exception raised by qdrant_client
or qa_ret escapes the handler. -/
theorem C4_ask_question_total (env : Env) (q : String) :
    (∃ s a, env.qdrant_client = .ok s ∧ env.qa_ret s q = .ok a ∧
      ask_question env q = .json [("answer", a)]) ∨
    (∃ d, ask_question env q = .httpError 500 d) := by
  rcases h1 : env.qdrant_client with s | e
  · rcases h2 : env.qa_ret s q with a | e
    · exact .inl ⟨s, a, rfl, h2, by simp only [ask_question, h1, h2]⟩
    · exact .inr ⟨"Failed to retrieve answer: " ++ e, by simp only [ask_question, h1, h2]⟩
  · exact .inr ⟨"Failed to retrieve answer: " ++ e, by simp only [ask_question, h1]⟩

/-- Claim C5: handle_question edits the thinking placeholder to the marked
answer when no step raises, and replies with the fixed apology text when
the placeholder send, qdrant_client, qa_ret or the edit raises (provided
Telegram accepts the apology reply). -/
theorem C5_handle_question_outcomes (env : Env) (q : String) :
    (∀ tid s a, env.reply_text "🤔 Let me think about that..." = .ok tid →
      env.qdrant_client = .ok s →
      env.qa_ret s q = .ok a →
      env.edit_text tid ("🔍 " ++ a) = .ok () →
      App.handle_question env q =
        ⟨[.sentReply "🤔 Let me think about that..." tid,
          .calledQdrantClient,
          .calledQaRet q,
          .editedMessage tid ("🔍 " ++ a)], false, none⟩) ∧
    (∀ e m, env.reply_text "🤔 Let me think about that..." = .exn e →
      env.reply_text "❌ Sorry, I couldn\x27t process your question. Make sure you\x27ve sent a PDF first!" = .ok m →
      App.handle_question env q =
        ⟨[.sentReply "❌ Sorry, I couldn\x27t process your question. Make sure you\x27ve sent a PDF first!" m],
         false, none⟩) ∧
    (∀ tid e m, env.reply_text "🤔 Let me think about that..." = .ok tid →
      env.qdrant_client = .exn e →
      env.reply_text "❌ Sorry, I couldn\x27t process your question. Make sure you\x27ve sent a PDF first!" = .ok m →
      App.handle_question env q =
        ⟨[.sentReply "🤔 Let me think about that..." tid,
          .calledQdrantClient,
          .sentReply "❌ Sorry, I couldn\x27t process your question. Make sure you\x27ve sent a PDF first!" m],
         false, none⟩) ∧
    (∀ tid s e m, env.reply_text "🤔 Let me think about that..." = .ok tid →
      env.qdrant_client = .ok s →
      env.qa_ret s q = .exn e →
      env.reply_text "❌ Sorry, I couldn\x27t process your question. Make sure you\x27ve sent a PDF first!" = .ok m →
      App.handle_question env q =
        ⟨[.sentReply "🤔 Let me think about that..." tid,
          .calledQdrantClient,
          .calledQaRet q,
          .sentReply "❌ Sorry, I couldn\x27t process your question. Make sure you\x27ve sent a PDF first!" m],
         false, none⟩) ∧
    (∀ tid s a e m, env.reply_text "🤔 Let me think about that..." = .ok tid →
      env.qdrant_client = .ok s →
      env.qa_ret s q = .ok a →
      env.edit_text tid ("🔍 " ++ a) = .exn e →
      env.reply_text "❌ Sorry, I couldn\x27t process your question. Make sure you\x27ve sent a PDF first!" = .ok m →
      App.handle_question env q =
        ⟨[.sentReply "🤔 Let me think about that..." tid,
          .calledQdrantClient,
          .calledQaRet q,
          .sentReply "❌ Sorry, I couldn\x27t process your question. Make sure you\x27ve sent a PDF first!" m],
         false, none⟩) := by
  refine ⟨?_, ?_, ?_, ?_, ?_⟩ <;> intros <;>
    simp_all [App.handle_question, App.question_except]

/-- Witness for C5_handle_question_outcomes: on the all-success oracle the
thinking placeholder is edited to the marked answer. -/
theorem C5_witness :
    App.handle_question okEnv "What color is the sky?" =
      ⟨[.sentReply "🤔 Let me think about that..." 0,
        .calledQdrantClient,
        .calledQaRet "What color is the sky?",
        .editedMessage 0 "🔍 The sky is blue."], false, none⟩ :=
  (C5_handle_question_outcomes okEnv "What color is the sky?").1 0 1 "The sky is blue." rfl rfl rfl rfl

/-- Claim C6: ask_question depends only on the behaviour of qdrant_client
and qa_ret: two calls with the same question under identical collaborator
behaviour return the same response, so there is no hidden in-process state
across repeated calls. -/
theorem C6_ask_question_stateless (env1 env2 : Env) (q : String)
    (hc : env1.qdrant_client = env2.qdrant_client)
    (hr : env1.qa_ret = env2.qa_ret) :
    ask_question env1 q = ask_question env2 q := by
  unfold ask_question
  rw [hc, hr]

/-- Witness for C6_ask_question_stateless: two oracles differing in every
non-retrieval component give the same answer to the same question. -/
theorem C6_witness :
    ask_question okEnv "What color is the sky?" = ask_question pdfBoomEnv "What color is the sky?" :=
  C6_ask_question_stateless okEnv pdfBoomEnv "What color is the sky?" rfl rfl

/-- Claim C7: the four Telegram handlers defined in src/handler.py are
behaviourally identical to the handlers of the same names defined at lines
125-213 of src/app.py: on every oracle and update they produce the same
outcome — the same sequence of replies, edits and collaborator calls, the
same temporary-file state and the same escaped exception. -/
theorem C7_handler_file_equivalence (env : Env) (fid q : String) :
    Handler.start_command env = App.start_command env ∧
    Handler.help_command env = App.help_command env ∧
    Handler.handle_pdf env fid = App.handle_pdf env fid ∧
    Handler.handle_question env q = App.handle_question env q :=
  ⟨rfl, rfl, rfl, rfl⟩

/-- Claim C8: the health endpoint returns the constant status payload, and
its position in any served request sequence is unaffected by the uploads,
questions or failures around it. -/
theorem C8_health_check_constant (env : Env) (pre post : List Request) :
    health_check = .json [("status", "Hello There!")] ∧
    serve env (pre ++ Request.health :: post) =
      serve env pre ++ .json [("status", "Hello There!")] :: serve env post := by
  constructor
  · rfl
  · simp [serve, route, health_check]

/-- Claim C9: whenever send_to_qdrant returns a boolean (rather than
raising), upload_pdf has removed the temporary file by the time its response
is produced — for the true result and for the false result alike, because
the os.remove call precedes the success check. -/
theorem C9_remove_precedes_response (env : Env) (chunks : Chunks) (em : EmbModel) (b : Bool)
    (h1 : env.process_pdf env.tmp_name = .ok chunks)
    (h2 : env.OpenAIEmbeddings env.openai_api_key "text-embedding-ada-002" = .ok em)
    (h3 : env.send_to_qdrant chunks em = .ok b) :
    (upload_pdf env).2 = false := by
  cases b <;> simp [upload_pdf, h1, h2, h3]

/-- Witness for C9_remove_precedes_response: on the all-success oracle the
temporary file is gone when upload_pdf returns. -/
theorem C9_witness : (upload_pdf okEnv).2 = false :=
  C9_remove_precedes_response okEnv ["The sky is blue."] 7 true rfl rfl rfl

/-- Claim C10: evaluating the module-level statements of src/app.py
registers the FIRST definitions of start_command and help_command (the
add_handler calls run before the redefinitions), the registered handler
table never contains the second definitions, and the registered /start
handler replies with the single-line greeting. -/
theorem C10_first_definitions_registered (env : Env) (m : MsgId)
    (h : env.reply_text "Hello! I am your PDF assistant bot. Send me a PDF file and then ask questions about it." = .ok m) :
    ∃ st, evalModule ⟨[], []⟩ appModuleStmts = some st ∧
      st.handlers = [("start", .startV1), ("help", .helpV1)] ∧
      lookupFirst st.handlers "start" = some .startV1 ∧
      lookupFirst st.handlers "help" = some .helpV1 ∧
      (∀ p ∈ st.handlers, p.2 ≠ HandlerFn.startV2 ∧ p.2 ≠ HandlerFn.helpV2) ∧
      commandBehavior env HandlerFn.startV1 =
        some ⟨[.sentReply "Hello! I am your PDF assistant bot. Send me a PDF file and then ask questions about it." m],
              false, none⟩ := by
  refine ⟨_, rfl, rfl, by decide, by decide, by decide, ?_⟩
  simp [commandBehavior, App.start_command_v1, h]

/-- Witness for C10_first_definitions_registered: on the all-success oracle
the registered /start handler emits the single-line greeting as message 0. -/
theorem C10_witness :
    ∃ st, evalModule ⟨[], []⟩ appModuleStmts = some st ∧
      st.handlers = [("start", .startV1), ("help", .helpV1)] ∧
      lookupFirst st.handlers "start" = some .startV1 ∧
      lookupFirst st.handlers "help" = some .helpV1 ∧
      (∀ p ∈ st.handlers, p.2 ≠ HandlerFn.startV2 ∧ p.2 ≠ HandlerFn.helpV2) ∧
      commandBehavior okEnv HandlerFn.startV1 =
        some ⟨[.sentReply "Hello! I am your PDF assistant bot. Send me a PDF file and then ask questions about it." 0],
              false, none⟩ :=
  C10_first_definitions_registered okEnv 0 rfl

end DocGPT
